import Mathlib

/-!
Verification development for the negotiation-agent backend.

The definitions below are a shallow embedding of the Python sources
`src/backend/negotiation_engine.py` and `src/backend/session_manager.py`.
Python ints are modelled as `Int`, Python floats appearing in the scoring
and confidence arithmetic as `Rat` (the programs only ever combine decimal
literals, so exact rational arithmetic coincides with the float runs for
every input exercised here), strings as `String`, and `None`-able values as
`Option`.  Each definition carries a note naming the Python function it
embeds.
-/

namespace NegotiationAgent

/- The rational arithmetic primitives are shipped `@[irreducible]`; the
concrete evaluations below need them to reduce. -/
attribute [local semireducible] Rat.mul Rat.add Rat.sub Rat.inv Rat.ofScientific

/-! ### String helpers

Python substring tests (`kw in s`) and `str.lower()` are modelled over the
character list of a `String`.  Only ASCII letters occur in the keyword
tables, so `Char.toLower` agrees with Python `str.lower` on every string
compared against them. -/

/-- Model of Python `str.lower()`. -/
def strLower (s : String) : String := String.mk (s.data.map Char.toLower)

/-- `lstStarts pat l` is true when `pat` is an initial segment of `l`. -/
def lstStarts : List Char → List Char → Bool
  | [], _ => true
  | _ :: _, [] => false
  | a :: as, b :: bs => a == b && lstStarts as bs

/-- `lstHasSub pat l` is true when `pat` occurs contiguously inside `l`. -/
def lstHasSub (pat : List Char) : List Char → Bool
  | [] => pat.isEmpty
  | c :: rest => lstStarts pat (c :: rest) || lstHasSub pat rest

/-- Model of the Python substring test `pat in s`. -/
def strContains (s pat : String) : Bool := lstHasSub pat.data s.data

/-- Model of `sum(1 for word in words if word in msg)`. -/
def countContains (words : List String) (msg : String) : Nat :=
  (words.filter (fun w => strContains msg w)).length

/-- Model of Python `l[-n:]` for `n > 0`. -/
def lastN (n : Nat) (l : List α) : List α := l.drop (l.length - n)

/-! ### Price extraction

`re.findall(r'₹[\s,]*(\d+(?:,\d+)*)', text)` followed by
`int(match.replace(',', ''))`, as used by
`ConversationAnalyzer._analyze_price_movement` and
`AdvancedSessionManager._extract_recent_prices`.  The regex is embedded as
a left-to-right character scanner: a match starts at `₹`, skips separator
characters, then reads digit groups joined by commas; the numeric value of
the captured digits (commas dropped) is emitted.  Scanning resumes after
each match exactly as `findall` does. -/

/-- Characters matched by `[\s,]` in the price regex. -/
def isSepChar (c : Char) : Bool := c.isWhitespace || c == ','

/-- Scanner state for the price regex. -/
inductive ScanState where
  | idle : ScanState
  | skipSep : ScanState
  | inDigits : Nat → ScanState
  | afterComma : Nat → ScanState

/-- One pass of the price regex over a character list. -/
def scanPrices : ScanState → List Char → List Nat
  | .inDigits acc, [] => [acc]
  | .afterComma acc, [] => [acc]
  | _, [] => []
  | .idle, c :: rest =>
      if c == '₹' then scanPrices .skipSep rest else scanPrices .idle rest
  | .skipSep, c :: rest =>
      if isSepChar c then scanPrices .skipSep rest
      else if c.isDigit then scanPrices (.inDigits (c.toNat - 48)) rest
      else if c == '₹' then scanPrices .skipSep rest
      else scanPrices .idle rest
  | .inDigits acc, c :: rest =>
      if c.isDigit then scanPrices (.inDigits (10 * acc + (c.toNat - 48))) rest
      else if c == ',' then scanPrices (.afterComma acc) rest
      else if c == '₹' then acc :: scanPrices .skipSep rest
      else acc :: scanPrices .idle rest
  | .afterComma acc, c :: rest =>
      if c.isDigit then scanPrices (.inDigits (10 * acc + (c.toNat - 48))) rest
      else if c == '₹' then acc :: scanPrices .skipSep rest
      else acc :: scanPrices .idle rest

/-- All rupee amounts mentioned in a string, in order of occurrence. -/
def extractPrices (s : String) : List Int :=
  (scanPrices .idle s.data).map Int.ofNat

/-! ### Data model -/

/-- A chat message (`models.ChatMessage`): only the fields the negotiation
core reads are kept.  Timestamps are seconds as exact rationals. -/
structure Msg where
  sender : String
  content : String
  timestamp : Rat
deriving DecidableEq, Repr

/-- `NegotiationPhase` from `negotiation_engine.py`. -/
inductive Phase where
  | opening | exploration | bargaining | closing | deadlock
deriving DecidableEq, Repr

/-- The `.value` string of each `NegotiationPhase` member. -/
def Phase.value : Phase → String
  | .opening => "opening"
  | .exploration => "exploration"
  | .bargaining => "bargaining"
  | .closing => "closing"
  | .deadlock => "deadlock"

/-- `NegotiationTactic` from `negotiation_engine.py`. -/
inductive Tactic where
  | anchoring | scarcity | bundling | reciprocity
  | authority | socialProof | commitment | urgency
deriving DecidableEq, Repr

/-- `SessionOutcome` from `session_manager.py`. -/
inductive SessionOutcome where
  | success | failedPrice | failedTerms | sellerUnresponsive
  | userCancelled | technicalError
deriving DecidableEq, Repr

/-- `InterventionTrigger` from `session_manager.py`. -/
inductive InterventionTrigger where
  | deadlock | complexTerms | sellerRequest | technicalIssue | userRequest
deriving DecidableEq, Repr

/-- Result of `ConversationAnalyzer._analyze_price_movement`. -/
structure PriceAnalysis where
  currentPrice : Option Int
  previousPrices : List Int
  trend : String
  concessionAmount : Int
deriving DecidableEq, Repr

/-- Result of `ConversationAnalyzer._analyze_response_pattern`.  The short
branch of the Python function omits the average-length key; that absence is
modelled by `none`. -/
structure ResponsePattern where
  avgResponseTime : Option Rat
  avgMessageLength : Option Rat
  consistency : String
deriving DecidableEq, Repr

/-- The analysis dictionary returned by
`ConversationAnalyzer.analyze_seller_message`. -/
structure SellerAnalysis where
  sentiment : String
  flexibilityScore : Rat
  urgencyLevel : String
  personality : String
  priceAnalysis : PriceAnalysis
  objections : List String
  buyingSignals : List String
  responsePattern : ResponsePattern
  messageLength : Nat
  politenessScore : Rat
deriving DecidableEq, Repr

/-- A decision dictionary produced by `DecisionEngine.make_decision` (or the
error fallback in `process_negotiation_turn`, which carries no reasoning
key, hence the `Option`). -/
structure Decision where
  action : String
  offer : Option Int
  confidence : Rat
  reasoning : Option String
deriving DecidableEq, Repr

/-! ### Seller message analyzer

Embeds `ConversationAnalyzer` from `negotiation_engine.py`.  The keyword
tables are copied verbatim from `__init__` and the helper methods. -/

def positiveWords : List String :=
  ["good", "excellent", "perfect", "great", "wonderful", "yes", "sure", "okay"]

def negativeWords : List String :=
  ["no", "cannot", "impossible", "never", "refuse", "reject"]

def highFlexWords : List String :=
  ["negotiate", "flexible", "consider", "discuss", "maybe", "perhaps"]

def lowFlexWords : List String :=
  ["firm", "fixed", "final", "non-negotiable", "minimum", "cannot"]

def highUrgencyWords : List String :=
  ["urgent", "immediately", "today", "asap", "quick"]

def lowUrgencyWords : List String :=
  ["whenever", "no rush", "flexible", "anytime"]

def politeWords : List String :=
  ["please", "thank", "sorry", "appreciate", "understand", "respect"]

def rudeWords : List String :=
  ["no way", "impossible", "ridiculous", "waste"]

/-- `_analyze_sentiment` (input already lower-cased by the caller). -/
def analyzeSentiment (ml : String) : String :=
  let pc := countContains positiveWords ml
  let nc := countContains negativeWords ml
  if nc < pc then "positive"
  else if pc < nc then "negative"
  else "neutral"

/-- `_count_price_concessions`: the source is a placeholder returning 0. -/
def countPriceConcessions (_history : List Msg) : Nat := 0

/-- `_assess_flexibility`. -/
def assessFlexibility (ml : String) (history : List Msg) : Rat :=
  let hc := countContains highFlexWords ml
  let lc := countContains lowFlexWords ml
  let base : Rat := 1/2
  let base := if 0 < hc then base + (2/10) * (hc : Rat) else base
  let base := if 0 < lc then base - (3/10) * (lc : Rat) else base
  let pc := countPriceConcessions history
  let base := if 0 < pc then base + (1/10) * (pc : Rat) else base
  max 0 (min 1 base)

/-- `_detect_urgency`. -/
def detectUrgency (ml : String) : String :=
  let hu := countContains highUrgencyWords ml
  let lu := countContains lowUrgencyWords ml
  if 0 < hu then "high"
  else if 0 < lu then "low"
  else "medium"

/-- `_infer_personality` (returns the `.value` string of the enum member;
the `aggressive` member is unreachable in the source). -/
def inferPersonality (ml : String) (history : List Msg) : String :=
  let sellerMsgs := history.filter (fun m => m.sender == "seller")
  let avg : Rat :=
    ((sellerMsgs.map (fun m => m.content.length)).sum : Rat) /
      (max 1 sellerMsgs.length : Nat)
  if strContains ml "firm" || strContains ml "final" ||
      strContains ml "non-negotiable" then "firm"
  else if strContains ml "flexible" || strContains ml "negotiate" then "flexible"
  else if strContains ml "quick" || strContains ml "urgent" ||
      decide (avg < 50) then "eager"
  else if 150 < avg then "hesitant"
  else "flexible"

/-- `_analyze_price_movement`: works on the raw (non-lowered) message. -/
def analyzePriceMovement (message : String) (history : List Msg) : PriceAnalysis :=
  let prices := extractPrices message
  match prices.getLast? with
  | none => { currentPrice := none, previousPrices := [], trend := "stable",
              concessionAmount := 0 }
  | some current =>
      let previous :=
        ((history.filter (fun m => m.sender == "seller")).map
          (fun m => extractPrices m.content)).flatten
      match previous.getLast? with
      | none =>
          { currentPrice := some current, previousPrices := previous,
            trend := "stable", concessionAmount := 0 }
      | some last =>
          { currentPrice := some current, previousPrices := previous,
            trend := if current < last then "decreasing"
                     else if last < current then "increasing" else "stable",
            concessionAmount := last - current }

/-- `_identify_objections`: tags appended in the Python dict insertion
order. -/
def identifyObjections (ml : String) : List String :=
  (if [ "too low", "not enough", "cannot accept", "minimum"
      ].any (fun k => strContains ml k) then ["price_too_low"] else []) ++
  (if ["condition", "wear", "damage", "issue"
      ].any (fun k => strContains ml k) then ["condition_concerns"] else []) ++
  (if ["time", "when", "schedule", "availability"
      ].any (fun k => strContains ml k) then ["timing_issues"] else []) ++
  (if ["trust", "verify", "proof", "guarantee"
      ].any (fun k => strContains ml k) then ["trust_concerns"] else [])

/-- `_detect_buying_signals`. -/
def detectBuyingSignals (ml : String) : List String :=
  (if ["okay", "fine", "accept", "deal"
      ].any (fun k => strContains ml k) then ["price_acceptance"] else []) ++
  (if ["when", "where", "pickup", "delivery", "meet"
      ].any (fun k => strContains ml k) then ["logistics_discussion"] else []) ++
  (if ["payment", "cash", "transfer", "money"
      ].any (fun k => strContains ml k) then ["payment_discussion"] else []) ++
  (if ["urgent", "immediately", "quick sale"
      ].any (fun k => strContains ml k) then ["urgency_to_sell"] else [])

/-- `_assess_politeness`. -/
def assessPoliteness (ml : String) : Rat :=
  let pc := countContains politeWords ml
  let rc := countContains rudeWords ml
  let base : Rat := 6/10 + (1/10) * (pc : Rat) - (2/10) * (rc : Rat)
  max 0 (min 1 base)

/-- Differences of consecutive elements, for the response-time list. -/
def consecutiveDiffs : List Rat → List Rat
  | a :: b :: rest => (b - a) :: consecutiveDiffs (b :: rest)
  | _ => []

/-- `_analyze_response_pattern`. -/
def analyzeResponsePattern (history : List Msg) : ResponsePattern :=
  let sellerMsgs := history.filter (fun m => m.sender == "seller")
  if sellerMsgs.length < 2 then
    { avgResponseTime := none, avgMessageLength := none, consistency := "unknown" }
  else
    let avgLen : Rat :=
      ((sellerMsgs.map (fun m => m.content.length)).sum : Rat) / sellerMsgs.length
    let diffs := consecutiveDiffs (sellerMsgs.map (fun m => m.timestamp))
    let avgTime : Option Rat :=
      if diffs.isEmpty then none else some (diffs.sum / diffs.length)
    { avgResponseTime := avgTime, avgMessageLength := some avgLen,
      consistency := if 30 < avgLen then "consistent" else "brief" }

/-- `ConversationAnalyzer.analyze_seller_message`: a pure function of the
seller message and the chat history (the `session_data` argument is never
read by the source method). -/
def analyzeSellerMessage (message : String) (history : List Msg) : SellerAnalysis :=
  let ml := strLower message
  { sentiment := analyzeSentiment ml
    flexibilityScore := assessFlexibility ml history
    urgencyLevel := detectUrgency ml
    personality := inferPersonality ml history
    priceAnalysis := analyzePriceMovement message history
    objections := identifyObjections ml
    buyingSignals := detectBuyingSignals ml
    responsePattern := analyzeResponsePattern history
    messageLength := message.length
    politenessScore := assessPoliteness ml }

/-! ### Phase state machine

Embeds `AdvancedNegotiationEngine._determine_negotiation_phase`. -/

/-- The `closing_keywords` list of the source. -/
def closingKeywords : List String :=
  ["deal", "final", "accept", "agree", "done", "sold"]

/-- Any closing keyword occurring in the space-joined, lower-cased last
three messages. -/
def hasClosingKeyword (history : List Msg) : Bool :=
  let joined := String.intercalate " " ((lastN 3 history).map (fun m => strLower m.content))
  closingKeywords.any (fun kw => strContains joined kw)

/-- The price-mention test of the source: the word `price` in the lowered
content, or a rupee sign in the raw content, of one of the last three
messages. -/
def priceMentionedRecently (history : List Msg) : Bool :=
  (lastN 3 history).any
    (fun m => strContains (strLower m.content) "price" || strContains m.content "₹")

/-- `_determine_negotiation_phase`: note that the first branch fires on
message count alone, before any keyword is inspected. -/
def determineNegotiationPhase (history : List Msg) (a : SellerAnalysis) : Phase :=
  if history.length ≤ 2 then .opening
  else if hasClosingKeyword history then .closing
  else if a.flexibilityScore < 2/10 ∧ 6 < history.length then .deadlock
  else if priceMentionedRecently history ∧ 3 < history.length then .bargaining
  else .exploration

/-! ### Decision engine

Embeds `DecisionEngine` from `negotiation_engine.py`. -/

/-- Python `int(float)` truncation toward zero, on exact rationals. -/
def pyInt (q : Rat) : Int := if 0 ≤ q then q.floor else -((-q).floor)

/-- The price the decision logic works with: Python
`if not current_price: current_price = product.price` treats both a missing
price and an extracted 0 as falsy. -/
def effectivePrice (a : SellerAnalysis) (productPrice : Int) : Int :=
  match a.priceAnalysis.currentPrice with
  | none => productPrice
  | some p => if p = 0 then productPrice else p

/-- `DecisionEngine._calculate_counter_offer`. -/
def calculateCounterOffer (currentPrice targetPrice : Int) (flexibility : Rat)
    (phase : Phase) : Int :=
  let priceGap := currentPrice - targetPrice
  let increment :=
    match phase with
    | .opening => pyInt ((priceGap : Rat) * (3/10) * flexibility)
    | .bargaining => pyInt ((priceGap : Rat) * (4/10) * flexibility)
    | _ => pyInt ((priceGap : Rat) * (6/10) * flexibility)
  min (targetPrice + increment) (currentPrice - 1000)

/-- `DecisionEngine.make_decision`.  The middle branch falls through to the
trailing `continue` return when the seller is firm and the price sits at or
above 95 percent of the budget, exactly as the Python control flow does. -/
def makeDecision (targetPrice maxBudget : Int) (a : SellerAnalysis)
    (phase : Phase) (productPrice : Int) : Decision :=
  let cp := effectivePrice a productPrice
  if cp ≤ targetPrice then
    { action := "accept", offer := none, confidence := 9/10,
      reasoning := some "Price within target range" }
  else if cp ≤ maxBudget then
    if 6/10 < a.flexibilityScore then
      { action := "counter_offer",
        offer := some (calculateCounterOffer cp targetPrice a.flexibilityScore phase),
        confidence := 7/10,
        reasoning := some "Seller shows flexibility, room for negotiation" }
    else if (cp : Rat) < (maxBudget : Rat) * (95/100) then
      { action := "accept_with_conditions", offer := none, confidence := 6/10,
        reasoning := some "Close to budget limit, try to add value" }
    else
      { action := "continue", offer := none, confidence := 1/2,
        reasoning := some "Gather more information" }
  else
    if 7/10 < a.flexibilityScore then
      { action := "final_offer",
        offer := some (min maxBudget (pyInt ((targetPrice : Rat) * (11/10)))),
        confidence := 4/10,
        reasoning := some "Last attempt before walking away" }
    else
      { action := "walk_away", offer := none, confidence := 8/10,
        reasoning := some "Price too high, seller inflexible" }

/-! ### Tactic selector

Embeds `StrategySelector` from `negotiation_engine.py`. -/

/-- The `tactic_effectiveness` table with its nested-`get` defaults: a
tactic without a table row, or a personality without a column, scores
0.5. -/
def tacticEffectiveness (t : Tactic) (personality : String) : Rat :=
  match t with
  | .anchoring =>
      if personality = "flexible" then 8/10
      else if personality = "firm" then 4/10
      else if personality = "eager" then 9/10 else 1/2
  | .scarcity =>
      if personality = "flexible" then 6/10
      else if personality = "firm" then 3/10
      else if personality = "eager" then 9/10 else 1/2
  | .bundling =>
      if personality = "flexible" then 7/10
      else if personality = "firm" then 1/2
      else if personality = "eager" then 6/10 else 1/2
  | .urgency =>
      if personality = "flexible" then 1/2
      else if personality = "firm" then 2/10
      else if personality = "eager" then 8/10 else 1/2
  | _ => 1/2

/-- The phase-specific candidate tactics accumulated by
`select_tactics` before filtering, in the order the source appends them. -/
def phaseCandidates (a : SellerAnalysis) (phase : Phase) : List Tactic :=
  match phase with
  | .opening =>
      [Tactic.anchoring] ++
        (if a.urgencyLevel = "high" then [Tactic.urgency] else [])
  | .bargaining =>
      (if 6/10 < a.flexibilityScore then [Tactic.reciprocity] else []) ++
        (if "price_too_low" ∈ a.objections then [Tactic.socialProof] else [])
  | .closing =>
      [Tactic.commitment] ++
        (if a.urgencyLevel = "high" then [Tactic.scarcity] else [])
  | .deadlock => [Tactic.bundling, Tactic.authority]
  | .exploration => []

/-- `StrategySelector.select_tactics` (the `decision` and `session_data`
arguments of the source method are never read). -/
def selectTactics (a : SellerAnalysis) (phase : Phase) : List Tactic :=
  ((phaseCandidates a phase).filter
    (fun t => decide (4/10 < tacticEffectiveness t a.personality))).take 3

/-! ### Turn processing

Embeds `AdvancedNegotiationEngine.process_negotiation_turn`.  The response
text produced by `ResponseGenerator` is natural-language surface phrasing,
declared out of the core scope by the specification; the turn record below
keeps the decision, tactics, analysis, phase and confidence.  The `try`
block is modelled by an explicit `internalError` flag: when it is set the
`except` fallback of the source is returned. -/

/-- The turn dictionary of `process_negotiation_turn` minus the response
text. -/
structure TurnResult where
  decision : Decision
  tacticsUsed : List Tactic
  analysis : Option SellerAnalysis
  phase : String
  confidence : Rat
deriving DecidableEq, Repr

/-- The `except`-branch fallback dictionary of the source (its decision
carries only an action and a confidence). -/
def fallbackTurnResult : TurnResult :=
  { decision := { action := "pause", offer := none, confidence := 1/2,
                  reasoning := none },
    tacticsUsed := [], analysis := none, phase := "exploration",
    confidence := 1/2 }

/-- `process_negotiation_turn`. -/
def processNegotiationTurn (internalError : Bool) (sellerMessage : String)
    (chatHistory : List Msg) (productPrice targetPrice maxBudget : Int) :
    TurnResult :=
  if internalError then fallbackTurnResult
  else
    let a := analyzeSellerMessage sellerMessage chatHistory
    let phase := determineNegotiationPhase chatHistory a
    let d := makeDecision targetPrice maxBudget a phase productPrice
    { decision := d, tacticsUsed := selectTactics a phase, analysis := some a,
      phase := phase.value, confidence := d.confidence }

/-! ### Intervention and completion detection

Embeds `AdvancedSessionManager` from `session_manager.py` (the path taken
when no enhanced AI service is configured, so turns run through
`process_negotiation_turn`). -/

/-- Direct-contact phrases of `_check_intervention_triggers`. -/
def containsSellerRequest (sellerMessage : String) : Bool :=
  ["speak to you directly", "call you", "talk to owner", "real person"
    ].any (fun p => strContains (strLower sellerMessage) p)

/-- Complex-terms phrases of `_check_intervention_triggers`. -/
def containsComplexTerms (sellerMessage : String) : Bool :=
  ["warranty", "return policy", "legal", "contract", "documentation"
    ].any (fun p => strContains (strLower sellerMessage) p)

/-- Technical-issue phrases of `_check_intervention_triggers`. -/
def containsTechnicalIssue (sellerMessage : String) : Bool :=
  ["not working", "error", "problem with", "technical issue"
    ].any (fun p => strContains (strLower sellerMessage) p)

/-- All rupee amounts in a message list
(`AdvancedSessionManager._extract_recent_prices`). -/
def extractRecentPrices (messages : List Msg) : List Int :=
  (messages.map (fun m => extractPrices m.content)).flatten

/-- `recent_prices and len(set(recent_prices)) == 1`: a nonempty list whose
elements are all equal. -/
def allEqualNE : List Int → Bool
  | [] => false
  | p :: rest => rest.all (fun q => q == p)

/-- `_check_intervention_triggers`; `messages` is the session log after the
seller message has been appended, as at the call site. -/
def checkInterventionTriggers (messages : List Msg) (sellerMessage : String) :
    Option InterventionTrigger :=
  if containsSellerRequest sellerMessage then some .sellerRequest
  else if containsComplexTerms sellerMessage then some .complexTerms
  else if 12 < messages.length &&
      allEqualNE (extractRecentPrices (lastN 6 messages)) then some .deadlock
  else if containsTechnicalIssue sellerMessage then some .technicalIssue
  else none

/-- `_check_completion_conditions`: reads the decision action and
confidence and the session message count (after the agent reply has been
appended, as at the call site). -/
def checkCompletionConditions (action : String) (confidence : Rat)
    (messageCount : Nat) : Option SessionOutcome :=
  if action = "accept" then some .success
  else if action = "walk_away" then some .failedPrice
  else if action = "final_offer" ∧ confidence < 3/10 then some .failedPrice
  else if 20 < messageCount then some .sellerUnresponsive
  else none

/-- Scan of `_extract_final_agreed_price` over an already reversed message
list. -/
def extractFinalAgreedPriceAux : List Msg → Option Int
  | [] => none
  | m :: rest =>
      if m.sender == "ai" &&
          ["accept", "deal", "agree"
            ].any (fun w => strContains (strLower m.content) w) then
        match (extractPrices m.content).getLast? with
        | some p => some p
        | none => extractFinalAgreedPriceAux rest
      else extractFinalAgreedPriceAux rest

/-- `_extract_final_agreed_price`: the last rupee amount in the most recent
agent message that contains one of `accept`, `deal`, `agree` and mentions
at least one price; keyword messages without a price are skipped and the
scan continues toward older messages. -/
def extractFinalAgreedPrice (messages : List Msg) : Option Int :=
  extractFinalAgreedPriceAux messages.reverse

/-- The terminal session fields written by `_complete_session`.  The
`NegotiationSession` model itself lives in `models.py`, which is not part
of the sources; per the specification data model its `final_price` starts
unset and is written only here, so a completed session record carries
`none` unless this function stores a price. -/
structure CompletedInfo where
  status : String
  outcome : SessionOutcome
  finalPrice : Option Int
deriving DecidableEq, Repr

/-- `_complete_session` (the session-state mutation: status, outcome and
the success-only final-price extraction). -/
def completeSession (messages : List Msg) (outcome : SessionOutcome) :
    CompletedInfo :=
  { status := "completed", outcome := outcome,
    finalPrice :=
      if outcome = SessionOutcome.success then extractFinalAgreedPrice messages
      else none }

/-- The canned handoff texts of `_trigger_human_handoff`.  The apostrophe
of the seller-request text is spelled via `Char.ofNat 39`. -/
def handoffMessage : InterventionTrigger → String
  | .sellerRequest =>
      "I understand you" ++ String.singleton (Char.ofNat 39) ++
        "d like to speak directly. Let me connect you with my colleague who can assist you better."
  | .complexTerms =>
      "These are important details that need careful consideration. Let me have someone with more expertise help us."
  | .deadlock =>
      "Let me bring in a colleague who might have a fresh perspective on this negotiation."
  | .technicalIssue =>
      "I want to make sure we address your concerns properly. Let me connect you with someone who can help."
  | .userRequest =>
      "Let me connect you with a human colleague for better assistance."

/-- Per-session state as read and written by `process_seller_response`. -/
structure SessionState where
  status : String
  messages : List Msg
deriving DecidableEq, Repr

/-- The observable result of one `process_seller_response` call. -/
structure TurnOutput where
  state : SessionState
  intervention : Option InterventionTrigger
  decision : Option Decision
  completion : Option SessionOutcome
  finalPrice : Option Int
deriving DecidableEq, Repr

/-- `AdvancedSessionManager.process_seller_response` on the engine path:
append the seller message, scan for intervention (which short-circuits into
a human handoff with a canned agent message and no decision), otherwise run
the negotiation turn, append the composed agent reply (`aiResponse`, the
prose produced by the out-of-scope text composer), and scan for
completion. -/
def processSellerResponse (st : SessionState) (sellerMessage aiResponse : String)
    (productPrice targetPrice maxBudget : Int) (tsSeller tsAi : Rat) :
    TurnOutput :=
  let sellerMsg : Msg := { sender := "seller", content := sellerMessage,
                           timestamp := tsSeller }
  let msgs1 := st.messages ++ [sellerMsg]
  match checkInterventionTriggers msgs1 sellerMessage with
  | some trigger =>
      let handoffMsg : Msg := { sender := "ai", content := handoffMessage trigger,
                                timestamp := tsAi }
      { state := { status := "human_handoff", messages := msgs1 ++ [handoffMsg] },
        intervention := some trigger, decision := none, completion := none,
        finalPrice := none }
  | none =>
      let result := processNegotiationTurn false sellerMessage msgs1
        productPrice targetPrice maxBudget
      let aiMsg : Msg := { sender := "ai", content := aiResponse, timestamp := tsAi }
      let msgs2 := msgs1 ++ [aiMsg]
      match checkCompletionConditions result.decision.action
          result.decision.confidence msgs2.length with
      | some outcome =>
          let info := completeSession msgs2 outcome
          { state := { status := info.status, messages := msgs2 },
            intervention := none, decision := some result.decision,
            completion := some outcome, finalPrice := info.finalPrice }
      | none =>
          { state := { status := st.status, messages := msgs2 },
            intervention := none, decision := some result.decision,
            completion := none, finalPrice := none }

/-! ### Concrete inputs used to instantiate the theorems -/

/-- An analysis record with the neutral defaults of the analyzer and a
chosen flexibility score and extracted price, for exercising the decision
engine at concrete inputs. -/
def mkAnalysis (flex : Rat) (cp : Option Int) : SellerAnalysis :=
  { sentiment := "neutral", flexibilityScore := flex, urgencyLevel := "medium",
    personality := "flexible",
    priceAnalysis := { currentPrice := cp, previousPrices := [],
                       trend := "stable", concessionAmount := 0 },
    objections := [], buyingSignals := [],
    responsePattern := { avgResponseTime := none, avgMessageLength := none,
                         consistency := "unknown" },
    messageLength := 0, politenessScore := 6/10 }

/-- A transcript in which a counter-offer of 9000 was made, the seller
accepted, and the agent posted the fixed acceptance text of
`ResponseGenerator._generate_acceptance_response`, which names no price. -/
def acceptedTranscript : List Msg :=
  [ { sender := "ai",
      content := "Based on current market rates for similar items, I was thinking around ₹9,000. What do you think?",
      timestamp := 0 },
    { sender := "seller", content := "okay deal", timestamp := 1 },
    { sender := "ai",
      content := "Perfect! I accept your offer. I can arrange cash payment and pickup at your convenience. Please share your preferred time and location for the transaction.",
      timestamp := 2 } ]

/-! ### Claim theorems -/

/-- C1: the emitted-offer bound fails in the code.  With
`target_price = 5000 > 0` and `max_budget = 10000 ≥ target_price`, the
seller message `maybe ₹5,500` is analysed with flexibility 0.7 and price
5500, and the engine emits a COUNTER_OFFER of 4500:
`min(target + increment, current − 1000)` undershoots the
`target_price ≤ offer` bound the specification declares a hard
post-condition (for `current < 1000` the emitted offer is even
negative). -/
theorem counter_offer_below_target_at_failing_input :
    (processNegotiationTurn false "maybe ₹5,500" [] 12000 5000 10000).decision.action
        = "counter_offer" ∧
      (processNegotiationTurn false "maybe ₹5,500" [] 12000 5000 10000).decision.offer
        = some 4500 ∧
      (4500 : Int) < 5000 ∧ (0 : Int) < 5000 ∧ (5000 : Int) ≤ 10000 := by
  exact ⟨by decide, by decide, by decide, by decide, by decide⟩

/-- C2 counterexample: an extracted seller price of 0 is below the target
5000, yet the decision is WALK_AWAY, not ACCEPT — Python
`if not current_price` treats the extracted 0 as missing and falls back to
the listed price 20000, which exceeds the budget. -/
theorem extracted_zero_price_not_accepted :
    (mkAnalysis (1/2) (some 0)).priceAnalysis.currentPrice = some 0 ∧
      (0 : Int) ≤ 5000 ∧
      (makeDecision 5000 10000 (mkAnalysis (1/2) (some 0)) .exploration 20000).action
        = "walk_away" := by
  exact ⟨rfl, by decide, by decide⟩

/-- C2 amended: for every extracted seller price `p` that is nonzero
(an extracted 0 is treated as no price and replaced by the listed price),
`p ≤ target_price` makes the decision ACCEPT with confidence 0.9. -/
theorem accept_when_extracted_price_le_target (t b pp p : Int)
    (a : SellerAnalysis) (ph : Phase)
    (hcp : a.priceAnalysis.currentPrice = some p) (hnz : p ≠ 0) (hle : p ≤ t) :
    (makeDecision t b a ph pp).action = "accept" ∧
      (makeDecision t b a ph pp).confidence = 9/10 := by
  have heff : effectivePrice a pp = p := by simp [effectivePrice, hcp, hnz]
  refine ⟨?_, ?_⟩ <;> simp [makeDecision, heff, hle]

/-- C2 witness: price 4000 extracted, target 5000, budget 10000. -/
theorem accept_when_extracted_price_le_target_witness :
    (makeDecision 5000 10000 (mkAnalysis (1/2) (some 4000)) .exploration 12000).action
        = "accept" ∧
      (makeDecision 5000 10000 (mkAnalysis (1/2) (some 4000)) .exploration 12000).confidence
        = 9/10 :=
  accept_when_extracted_price_le_target 5000 10000 12000 4000
    (mkAnalysis (1/2) (some 4000)) .exploration rfl (by decide) (by decide)

/-- C3 counterexample: with target 96, budget 1000, seller price 2000 and
flexibility 0.8 the code truncates (`int(96·1.1) = 105`) where the claim
rounds (`round(105.6) = 106`), so the emitted final offer differs from the
claimed `min(max_budget, round(target·1.1))`. -/
theorem final_offer_truncates_not_rounds :
    (makeDecision 96 1000 (mkAnalysis (8/10) (some 2000)) .opening 0).action
        = "final_offer" ∧
      (makeDecision 96 1000 (mkAnalysis (8/10) (some 2000)) .opening 0).offer
        = some 105 ∧
      min (1000 : Int) (((96 : Rat) * (11/10) + 1/2).floor) = 106 := by
  exact ⟨by decide, by decide, by decide⟩

/-- C3 amended: when the effective seller price exceeds the budget (with
`target ≤ budget`), flexibility above 0.7 gives FINAL_OFFER with
`offer = min(max_budget, trunc(target·1.1))` and confidence 0.4, and
flexibility at most 0.7 gives WALK_AWAY with confidence 0.8. -/
theorem over_budget_decision_characterization (t b pp : Int)
    (a : SellerAnalysis) (ph : Phase)
    (htb : t ≤ b) (hgt : b < effectivePrice a pp) :
    ((7/10 : Rat) < a.flexibilityScore →
        (makeDecision t b a ph pp).action = "final_offer" ∧
        (makeDecision t b a ph pp).offer
          = some (min b (pyInt ((t : Rat) * (11/10)))) ∧
        (makeDecision t b a ph pp).confidence = 4/10) ∧
      (a.flexibilityScore ≤ 7/10 →
        (makeDecision t b a ph pp).action = "walk_away" ∧
        (makeDecision t b a ph pp).offer = none ∧
        (makeDecision t b a ph pp).confidence = 8/10) := by
  have h1 : ¬ effectivePrice a pp ≤ t := by omega
  have h2 : ¬ effectivePrice a pp ≤ b := by omega
  constructor
  · intro hf
    refine ⟨?_, ?_, ?_⟩ <;> simp [makeDecision, h1, h2, hf]
  · intro hf
    have hf' : ¬ (7/10 : Rat) < a.flexibilityScore := not_lt.mpr hf
    refine ⟨?_, ?_, ?_⟩ <;> simp [makeDecision, h1, h2, hf']

/-- C3 witness: target 96, budget 1000, seller price 2000, flexibility
0.8. -/
theorem over_budget_decision_characterization_witness :
    (makeDecision 96 1000 (mkAnalysis (8/10) (some 2000)) .opening 0).action
        = "final_offer" ∧
      (makeDecision 96 1000 (mkAnalysis (8/10) (some 2000)) .opening 0).offer
        = some (min 1000 (pyInt ((96 : Rat) * (11/10)))) ∧
      (makeDecision 96 1000 (mkAnalysis (8/10) (some 2000)) .opening 0).confidence
        = 4/10 :=
  (over_budget_decision_characterization 96 1000 0 (mkAnalysis (8/10) (some 2000))
    .opening (by decide) (by decide)).1 (by decide)

/-- C4 counterexample: the keyword `final` occurs in the last message of a
two-message history, so the claimed rule order yields CLOSING, but the code
returns OPENING whenever the message count is at most 2 — the count test
runs first and is not conditioned on the absence of closing or price
keywords. -/
theorem phase_opening_despite_closing_keyword :
    strContains (strLower "my final price is 100") "final" = true ∧
      determineNegotiationPhase
        [ { sender := "seller", content := "hello there", timestamp := 0 },
          { sender := "seller", content := "my final price is 100", timestamp := 1 } ]
        (mkAnalysis (1/2) none) = Phase.opening := by
  exact ⟨by decide, by decide⟩

/-- C4 amended: the phase is recomputed each turn by the rules, in order,
first match wins — message count at most 2 yields OPENING unconditionally;
then any of `deal`, `final`, `accept`, `agree`, `done`, `sold` in the
space-joined lowered last three messages yields CLOSING; then flexibility
below 0.2 with more than 6 messages yields DEADLOCK; then a price mention
in the last three messages with more than 3 messages yields BARGAINING;
otherwise EXPLORATION. -/
theorem determine_phase_characterization (history : List Msg) (a : SellerAnalysis) :
    (history.length ≤ 2 → determineNegotiationPhase history a = .opening) ∧
      (2 < history.length → hasClosingKeyword history = true →
        determineNegotiationPhase history a = .closing) ∧
      (2 < history.length → hasClosingKeyword history = false →
        a.flexibilityScore < 2/10 → 6 < history.length →
        determineNegotiationPhase history a = .deadlock) ∧
      (2 < history.length → hasClosingKeyword history = false →
        ¬(a.flexibilityScore < 2/10 ∧ 6 < history.length) →
        priceMentionedRecently history = true → 3 < history.length →
        determineNegotiationPhase history a = .bargaining) ∧
      (2 < history.length → hasClosingKeyword history = false →
        ¬(a.flexibilityScore < 2/10 ∧ 6 < history.length) →
        ¬(priceMentionedRecently history = true ∧ 3 < history.length) →
        determineNegotiationPhase history a = .exploration) := by
  refine ⟨?_, ?_, ?_, ?_, ?_⟩
  · intro h
    simp [determineNegotiationPhase, h]
  · intro h hck
    have h' : ¬ history.length ≤ 2 := by omega
    simp [determineNegotiationPhase, h', hck]
  · intro h hck hf h6
    have h' : ¬ history.length ≤ 2 := by omega
    simp [determineNegotiationPhase, h', hck, hf, h6]
  · intro h hck hnd hpm h3
    have h' : ¬ history.length ≤ 2 := by omega
    simp [determineNegotiationPhase, h', hck, hnd, hpm, h3]
  · intro h hck hnd hnb
    have h' : ¬ history.length ≤ 2 := by omega
    simp [determineNegotiationPhase, h', hck, hnd, hnb]

/-- C4 witness: an empty history is in the OPENING phase. -/
theorem determine_phase_characterization_witness :
    determineNegotiationPhase [] (mkAnalysis (1/2) none) = Phase.opening :=
  (determine_phase_characterization [] (mkAnalysis (1/2) none)).1 (by decide)

/-- C5 counterexample: an ACCEPT_WITH_CONDITIONS decision (confidence 0.6,
5 messages) does not terminate the session — the scan only recognises the
exact action string `accept`, so the claimed SUCCESS termination on
ACCEPT_WITH_CONDITIONS does not happen. -/
theorem accept_with_conditions_does_not_complete :
    checkCompletionConditions "accept_with_conditions" (6/10) 5 = none := by
  decide

/-- C5 amended: the completion scan yields SUCCESS exactly on action
`accept` (not on `accept_with_conditions`), FAILED_PRICE on `walk_away`
and on `final_offer` with confidence below 0.3, SELLER_UNRESPONSIVE when
none of those hold and the message count exceeds 20, and otherwise does
not terminate the session. -/
theorem completion_scan_characterization (action : String) (confidence : Rat)
    (messageCount : Nat) :
    (action = "accept" →
        checkCompletionConditions action confidence messageCount
          = some SessionOutcome.success) ∧
      (action = "walk_away" →
        checkCompletionConditions action confidence messageCount
          = some SessionOutcome.failedPrice) ∧
      (action = "final_offer" → confidence < 3/10 →
        checkCompletionConditions action confidence messageCount
          = some SessionOutcome.failedPrice) ∧
      (action ≠ "accept" → action ≠ "walk_away" →
        ¬(action = "final_offer" ∧ confidence < 3/10) →
        (20 < messageCount →
          checkCompletionConditions action confidence messageCount
            = some SessionOutcome.sellerUnresponsive) ∧
        (messageCount ≤ 20 →
          checkCompletionConditions action confidence messageCount = none)) := by
  refine ⟨?_, ?_, ?_, ?_⟩
  · intro h
    simp [checkCompletionConditions, h]
  · intro h
    subst h
    simp [checkCompletionConditions,
      show ("walk_away" : String) ≠ "accept" from by decide]
  · intro h hc
    subst h
    simp [checkCompletionConditions, hc,
      show ("final_offer" : String) ≠ "accept" from by decide,
      show ("final_offer" : String) ≠ "walk_away" from by decide]
  · intro hna hnw hnf
    constructor
    · intro h20
      simp [checkCompletionConditions, hna, hnw, hnf, h20]
    · intro hle
      have h20 : ¬ 20 < messageCount := by omega
      simp [checkCompletionConditions, hna, hnw, hnf, h20]

/-- C5 witness: an `accept` decision completes the session with
SUCCESS. -/
theorem completion_scan_characterization_witness :
    checkCompletionConditions "accept" (9/10) 3 = some SessionOutcome.success :=
  (completion_scan_characterization "accept" (9/10) 3).1 rfl

/-- C6: a seller message containing a direct-contact phrase, at any phase
and any session state, short-circuits the turn: the trigger is
SELLER_REQUEST, the session status becomes HUMAN_HANDOFF, the canned
handoff text is appended after the seller message, and no decision is
computed. -/
theorem seller_request_triggers_handoff (st : SessionState)
    (sellerMessage aiResponse : String) (productPrice targetPrice maxBudget : Int)
    (tsSeller tsAi : Rat)
    (h : containsSellerRequest sellerMessage = true) :
    (processSellerResponse st sellerMessage aiResponse productPrice targetPrice
        maxBudget tsSeller tsAi).intervention
        = some InterventionTrigger.sellerRequest ∧
      (processSellerResponse st sellerMessage aiResponse productPrice targetPrice
        maxBudget tsSeller tsAi).state.status = "human_handoff" ∧
      (processSellerResponse st sellerMessage aiResponse productPrice targetPrice
        maxBudget tsSeller tsAi).state.messages
        = st.messages ++
            [ { sender := "seller", content := sellerMessage, timestamp := tsSeller },
              { sender := "ai",
                content := handoffMessage InterventionTrigger.sellerRequest,
                timestamp := tsAi } ] ∧
      (processSellerResponse st sellerMessage aiResponse productPrice targetPrice
        maxBudget tsSeller tsAi).decision = none := by
  have hck : checkInterventionTriggers
      (st.messages ++
        [{ sender := "seller", content := sellerMessage, timestamp := tsSeller }])
      sellerMessage = some InterventionTrigger.sellerRequest := by
    simp [checkInterventionTriggers, h]
  refine ⟨?_, ?_, ?_, ?_⟩ <;> simp [processSellerResponse, hck]

/-- C6 witness: the scenario message at an active empty session. -/
theorem seller_request_triggers_handoff_witness :
    (processSellerResponse ⟨"active", []⟩ "I would like to speak to you directly"
        "ok" 12000 5000 10000 0 1).intervention
        = some InterventionTrigger.sellerRequest ∧
      (processSellerResponse ⟨"active", []⟩ "I would like to speak to you directly"
        "ok" 12000 5000 10000 0 1).state.status = "human_handoff" ∧
      (processSellerResponse ⟨"active", []⟩ "I would like to speak to you directly"
        "ok" 12000 5000 10000 0 1).state.messages
        = [ { sender := "seller", content := "I would like to speak to you directly",
              timestamp := 0 },
            { sender := "ai",
              content := handoffMessage InterventionTrigger.sellerRequest,
              timestamp := 1 } ] ∧
      (processSellerResponse ⟨"active", []⟩ "I would like to speak to you directly"
        "ok" 12000 5000 10000 0 1).decision = none :=
  seller_request_triggers_handoff ⟨"active", []⟩
    "I would like to speak to you directly" "ok" 12000 5000 10000 0 1 (by decide)

/-- C7 counterexample: a session completed with SUCCESS after a
counter-offer of 9000 and the acceptance reply, yet `final_price` is
unset: the acceptance message carries the keyword but no rupee amount, the
counter-offer message carries the amount but no keyword, so the extraction
returns nothing. -/
theorem final_price_none_despite_success :
    extractPrices "Based on current market rates for similar items, I was thinking around ₹9,000. What do you think?"
        = [9000] ∧
      (completeSession acceptedTranscript SessionOutcome.success).finalPrice = none := by
  exact ⟨by decide, by decide⟩

/-- C7 amended: `_complete_session` stores a final price only when the
outcome is SUCCESS, and on SUCCESS it stores exactly what
`_extract_final_agreed_price` finds in the transcript — the last rupee
amount of the most recent agent message containing an acceptance keyword
and a price, which may be nothing (so `final_price` can stay unset even on
SUCCESS) and need not be the last offered amount. -/
theorem final_price_only_on_success (messages : List Msg)
    (outcome : SessionOutcome) :
    ((completeSession messages outcome).finalPrice ≠ none →
        outcome = SessionOutcome.success) ∧
      (outcome = SessionOutcome.success →
        (completeSession messages outcome).finalPrice
          = extractFinalAgreedPrice messages) := by
  constructor
  · intro h
    by_cases ho : outcome = SessionOutcome.success
    · exact ho
    · exact absurd (by simp [completeSession, ho]) h
  · intro ho
    simp [completeSession, ho]

/-- C7 witness: the amended statement at the demonstration transcript. -/
theorem final_price_only_on_success_witness :
    (completeSession acceptedTranscript SessionOutcome.success).finalPrice
      = extractFinalAgreedPrice acceptedTranscript :=
  (final_price_only_on_success acceptedTranscript SessionOutcome.success).2 rfl

/-- C8: the analyzer and the decision pipeline are pure functions in this
embedding (the source methods use no randomness and read nothing beyond
their arguments; the only random choices sit in the out-of-scope response
text), so two runs on identical inputs produce the identical decision
action and offer. -/
theorem pipeline_two_run_determinism (m m' : String) (hist hist' : List Msg)
    (pp pp' t t' b b' : Int) (hm : m = m') (hh : hist = hist')
    (hpp : pp = pp') (ht : t = t') (hb : b = b') :
    (processNegotiationTurn false m hist pp t b).decision.action
        = (processNegotiationTurn false m' hist' pp' t' b').decision.action ∧
      (processNegotiationTurn false m hist pp t b).decision.offer
        = (processNegotiationTurn false m' hist' pp' t' b').decision.offer := by
  subst hm hh hpp ht hb
  exact ⟨rfl, rfl⟩

/-- C8 witness: two identical runs at a concrete input. -/
theorem pipeline_two_run_determinism_witness :
    (processNegotiationTurn false "okay fine ₹7,000" [] 9000 6000 8000).decision.action
        = (processNegotiationTurn false "okay fine ₹7,000" [] 9000 6000 8000).decision.action ∧
      (processNegotiationTurn false "okay fine ₹7,000" [] 9000 6000 8000).decision.offer
        = (processNegotiationTurn false "okay fine ₹7,000" [] 9000 6000 8000).decision.offer :=
  pipeline_two_run_determinism "okay fine ₹7,000" "okay fine ₹7,000" [] []
    9000 9000 6000 6000 8000 8000 rfl rfl rfl rfl rfl

/-- C9: the tactic selector returns at most 3 tactics, as an
order-preserving sublist of the phase candidate list (so the first
candidate that survives is primary), and every returned tactic has
effectiveness above 0.4 for the detected personality. -/
theorem select_tactics_bounded_ordered_effective (a : SellerAnalysis)
    (phase : Phase) :
    (selectTactics a phase).length ≤ 3 ∧
      List.Sublist (selectTactics a phase) (phaseCandidates a phase) ∧
      ∀ t ∈ selectTactics a phase,
        4/10 < tacticEffectiveness t a.personality := by
  refine ⟨?_, ?_, ?_⟩
  · simp only [selectTactics, List.length_take]
    exact Nat.min_le_left _ _
  · exact (List.take_sublist _ _).trans (List.filter_sublist _)
  · intro t ht
    have ht' : t ∈ (phaseCandidates a phase).filter
        (fun t => decide (4/10 < tacticEffectiveness t a.personality)) :=
      List.mem_of_mem_take ht
    exact of_decide_eq_true (List.mem_filter.mp ht').2

/-- C9 witness: in DEADLOCK against the default personality, BUNDLING is
selected and its effectiveness exceeds 0.4. -/
theorem select_tactics_bounded_ordered_effective_witness :
    4/10 < tacticEffectiveness Tactic.bundling (mkAnalysis (1/2) none).personality :=
  (select_tactics_bounded_ordered_effective (mkAnalysis (1/2) none) .deadlock).2.2
    Tactic.bundling (by decide)

/-- C10: whenever an internal error interrupts a turn,
`process_negotiation_turn` absorbs it and returns the fallback record:
decision action `pause` (a string outside the Decision action vocabulary)
with confidence 0.5, no tactics, and phase `exploration`; no exception
escapes. -/
theorem process_turn_error_fallback (sellerMessage : String)
    (chatHistory : List Msg) (productPrice targetPrice maxBudget : Int) :
    processNegotiationTurn true sellerMessage chatHistory productPrice
        targetPrice maxBudget = fallbackTurnResult ∧
      fallbackTurnResult.decision.action = "pause" ∧
      fallbackTurnResult.decision.confidence = 1/2 ∧
      fallbackTurnResult.tacticsUsed = [] ∧
      fallbackTurnResult.phase = "exploration" ∧
      (["accept", "counter_offer", "final_offer", "walk_away", "continue",
          "accept_with_conditions"].contains "pause") = false := by
  exact ⟨rfl, rfl, rfl, rfl, rfl, by decide⟩

end NegotiationAgent
